import Mathlib

/-!
Verification of the playlist-compatibility scoring and matching logic of the
onlymusic repository.  Each TypeScript module is embedded as a Lean namespace;
JavaScript numbers are modelled as real numbers (rationals where decidable
evaluation matters), JavaScript `NaN` / thrown exceptions as `Option.none`,
and `Math.random()` draws as explicit parameters.
-/

namespace PlaylistAnalyzer

/-- Embedding of `interface TrackFeatures` from `utils/playlistAnalyzer.ts`. -/
structure TrackFeatures where
  danceability : ℝ
  energy : ℝ
  valence : ℝ
  tempo : ℝ
  acousticness : ℝ
  instrumentalness : ℝ
  genres : List String

/-- The `moodProfile` record of `interface PlaylistProfile`. -/
structure MoodProfile where
  happy : ℝ
  energetic : ℝ
  relaxed : ℝ
  melancholic : ℝ

/-- Embedding of `interface PlaylistProfile` from `utils/playlistAnalyzer.ts`. -/
structure PlaylistProfile where
  dominantGenres : List String
  averageFeatures : TrackFeatures
  moodProfile : MoodProfile
  diversity : ℝ

/-- `calculateMoodDistance` of `utils/playlistAnalyzer.ts`: square root of the
mean of the squared componentwise differences over the four mood keys. -/
noncomputable def calculateMoodDistance (mood1 mood2 : MoodProfile) : ℝ :=
  Real.sqrt (((mood1.happy - mood2.happy) ^ 2 + (mood1.energetic - mood2.energetic) ^ 2 +
    (mood1.relaxed - mood2.relaxed) ^ 2 + (mood1.melancholic - mood2.melancholic) ^ 2) / 4)

/-- `calculateFeatureDistance` of `utils/playlistAnalyzer.ts`: square root of
the mean of the squared differences over danceability, energy, valence and
acousticness. -/
noncomputable def calculateFeatureDistance (features1 features2 : TrackFeatures) : ℝ :=
  Real.sqrt (((features1.danceability - features2.danceability) ^ 2 +
    (features1.energy - features2.energy) ^ 2 +
    (features1.valence - features2.valence) ^ 2 +
    (features1.acousticness - features2.acousticness) ^ 2) / 4)

/-- `calculatePlaylistCompatibility` of `utils/playlistAnalyzer.ts`. -/
noncomputable def calculatePlaylistCompatibility (profile1 profile2 : PlaylistProfile) : ℝ :=
  let commonGenres :=
    (profile1.dominantGenres.filter (fun genre => genre ∈ profile2.dominantGenres)).length
  let genreScore := ((commonGenres : ℝ) /
    ((min profile1.dominantGenres.length profile2.dominantGenres.length : ℕ) : ℝ)) * 0.3
  let moodScore := (1 - calculateMoodDistance profile1.moodProfile profile2.moodProfile) * 0.4
  let featureScore :=
    (1 - calculateFeatureDistance profile1.averageFeatures profile2.averageFeatures) * 0.2
  let diversityScore := (1 - |profile1.diversity - profile2.diversity|) * 0.1
  genreScore + moodScore + featureScore + diversityScore

/-- The `moodProfile` computed inside `analyzePlaylist` from the averaged
features: `happy`, `energetic`, `relaxed`, `melancholic`. -/
noncomputable def moodProfileOf (avg : TrackFeatures) : MoodProfile :=
  { happy := (avg.valence + avg.energy) / 2,
    energetic := avg.energy,
    relaxed := (avg.acousticness + (1 - avg.energy)) / 2,
    melancholic := (1 - avg.valence + avg.acousticness) / 2 }

/-- Embedding of the Spotify `Artist` objects consumed by `analyzePlaylist`:
an identifier, a display name and a list of genre tags. -/
structure Artist where
  id : String
  name : String
  genres : List String

/-- All genre occurrences over the fetched artists, in traversal order
(`artists.forEach(artist => artist.genres.forEach(...))`). -/
def allArtistGenres (artists : List Artist) : List String :=
  artists.flatMap Artist.genres

/-- The count accumulated in `genreCount[genre]` for a given genre. -/
def genreCount (artists : List Artist) (genre : String) : ℕ :=
  (allArtistGenres artists).count genre

/-- Key list of a JavaScript object built by repeated insertion: first
occurrences, in order (the order `Object.entries` reports). -/
def objectKeys (l : List String) : List String :=
  l.foldl (fun acc g => if g ∈ acc then acc else acc ++ [g]) []

/-- `dominantGenres` of `analyzePlaylist`: the genre-count entries sorted by
descending count (a stable sort, as in modern JavaScript engines), truncated
to the first five, keeping only the genre names. -/
def dominantGenresOf (artists : List Artist) : List String :=
  (@List.insertionSort String
      (fun g1 g2 => genreCount artists g2 ≤ genreCount artists g1)
      (fun g1 g2 => inferInstanceAs (Decidable (genreCount artists g2 ≤ genreCount artists g1)))
      (objectKeys (allArtistGenres artists))).take 5

/-- The per-descriptor averaging step of `analyzePlaylist` (`reduce` summing
each descriptor, then division by `audioFeatures.length`).  On an empty list
the division is `0 / 0 = NaN` in JavaScript, modelled as `none`. -/
noncomputable def averageFeatures (audioFeatures : List TrackFeatures) : Option TrackFeatures :=
  if audioFeatures.length = 0 then none
  else some
    { danceability := (audioFeatures.map TrackFeatures.danceability).sum / audioFeatures.length,
      energy := (audioFeatures.map TrackFeatures.energy).sum / audioFeatures.length,
      valence := (audioFeatures.map TrackFeatures.valence).sum / audioFeatures.length,
      tempo := (audioFeatures.map TrackFeatures.tempo).sum / audioFeatures.length,
      acousticness := (audioFeatures.map TrackFeatures.acousticness).sum / audioFeatures.length,
      instrumentalness :=
        (audioFeatures.map TrackFeatures.instrumentalness).sum / audioFeatures.length,
      genres := [] }

/-- The per-feature standard deviation computed inside `calculateDiversity`:
mean, then mean squared deviation, then square root. -/
noncomputable def featureStdDev (values : List ℝ) : ℝ :=
  let mean := values.sum / values.length
  Real.sqrt ((values.map (fun b => (b - mean) ^ 2)).sum / values.length)

/-- `calculateDiversity` of `utils/playlistAnalyzer.ts`: the mean of the
standard deviations of danceability, energy, valence and acousticness.  On an
empty list `values.reduce((a, b) => a + b)` has no initial value and throws a
`TypeError`, modelled as `none`. -/
noncomputable def calculateDiversity (audioFeatures : List TrackFeatures) : Option ℝ :=
  if audioFeatures.length = 0 then none
  else some
    ((featureStdDev (audioFeatures.map TrackFeatures.danceability) +
      featureStdDev (audioFeatures.map TrackFeatures.energy) +
      featureStdDev (audioFeatures.map TrackFeatures.valence) +
      featureStdDev (audioFeatures.map TrackFeatures.acousticness)) / 4)

/-- The pure core of `analyzePlaylist` from `utils/playlistAnalyzer.ts`, after
the Spotify fetches: the artist list and the audio-feature list determine the
profile.  `none` models the NaN averages and the `TypeError` thrown by
`calculateDiversity` on an empty track list. -/
noncomputable def analyzePlaylist (artists : List Artist) (audioFeatures : List TrackFeatures) :
    Option PlaylistProfile :=
  match averageFeatures audioFeatures, calculateDiversity audioFeatures with
  | some avg, some dv =>
    some { dominantGenres := dominantGenresOf artists,
           averageFeatures := { avg with genres := dominantGenresOf artists },
           moodProfile := moodProfileOf avg,
           diversity := dv }
  | _, _ => none

/-- Spec-side reading of claim C1: the plain Euclidean distance between the
two mood vectors. -/
noncomputable def euclideanMoodDistance (mood1 mood2 : MoodProfile) : ℝ :=
  Real.sqrt ((mood1.happy - mood2.happy) ^ 2 + (mood1.energetic - mood2.energetic) ^ 2 +
    (mood1.relaxed - mood2.relaxed) ^ 2 + (mood1.melancholic - mood2.melancholic) ^ 2)

/-- Spec-side reading of claim C1: the plain Euclidean distance between the
two averaged audio-descriptor vectors (the four descriptors the source
compares). -/
noncomputable def euclideanFeatureDistance (features1 features2 : TrackFeatures) : ℝ :=
  Real.sqrt ((features1.danceability - features2.danceability) ^ 2 +
    (features1.energy - features2.energy) ^ 2 +
    (features1.valence - features2.valence) ^ 2 +
    (features1.acousticness - features2.acousticness) ^ 2)

/-- The genre-overlap ratio the source computes: shared dominant genres over
the size of the smaller list. -/
noncomputable def genreOverlapScore (l1 l2 : List String) : ℝ :=
  ((l1.filter (fun genre => genre ∈ l2)).length : ℝ) / ((min l1.length l2.length : ℕ) : ℝ)

/-- Claim C1 formalised literally: the weighted combination with weights
0.3 / 0.4 / 0.2 / 0.1 of genre overlap, one minus the Euclidean mood distance,
one minus the Euclidean feature distance, and one minus the absolute diversity
difference. -/
noncomputable def claimedCompatibility (profile1 profile2 : PlaylistProfile) : ℝ :=
  genreOverlapScore profile1.dominantGenres profile2.dominantGenres * 0.3 +
  (1 - euclideanMoodDistance profile1.moodProfile profile2.moodProfile) * 0.4 +
  (1 - euclideanFeatureDistance profile1.averageFeatures profile2.averageFeatures) * 0.2 +
  (1 - |profile1.diversity - profile2.diversity|) * 0.1

/-- The distance the source actually uses for moods: the Euclidean distance
divided by 2 (the square root of the number of components, four) - the
root-mean-square componentwise difference. -/
noncomputable def rmsMoodDistance (mood1 mood2 : MoodProfile) : ℝ :=
  euclideanMoodDistance mood1 mood2 / 2

/-- The distance the source actually uses for the averaged descriptors: the
Euclidean distance divided by 2 (the square root of the number of components,
four). -/
noncomputable def rmsFeatureDistance (features1 features2 : TrackFeatures) : ℝ :=
  euclideanFeatureDistance features1 features2 / 2

/-- Claim C1 as amended: the same weighted combination, but with the
root-mean-square (normalised Euclidean) distances. -/
noncomputable def amendedCompatibility (profile1 profile2 : PlaylistProfile) : ℝ :=
  genreOverlapScore profile1.dominantGenres profile2.dominantGenres * 0.3 +
  (1 - rmsMoodDistance profile1.moodProfile profile2.moodProfile) * 0.4 +
  (1 - rmsFeatureDistance profile1.averageFeatures profile2.averageFeatures) * 0.2 +
  (1 - |profile1.diversity - profile2.diversity|) * 0.1

/-- A concrete all-zero feature record, used by counterexamples and
witnesses. -/
def zeroFeatures : TrackFeatures :=
  { danceability := 0, energy := 0, valence := 0, tempo := 0,
    acousticness := 0, instrumentalness := 0, genres := [] }

/-- `zeroFeatures` with acousticness 1 (all other descriptors unchanged). -/
def acousticFeatures : TrackFeatures :=
  { danceability := 0, energy := 0, valence := 0, tempo := 0,
    acousticness := 1, instrumentalness := 0, genres := [] }

/-- A concrete all-zero mood vector. -/
def zeroMood : MoodProfile :=
  { happy := 0, energetic := 0, relaxed := 0, melancholic := 0 }

/-- A concrete all-one mood vector. -/
def onesMood : MoodProfile :=
  { happy := 1, energetic := 1, relaxed := 1, melancholic := 1 }

/-- A concrete profile: one dominant genre, all-zero mood. -/
def profileA : PlaylistProfile :=
  { dominantGenres := ["a"], averageFeatures := zeroFeatures,
    moodProfile := zeroMood, diversity := 0 }

/-- A concrete profile: one dominant genre, all-one mood. -/
def profileB : PlaylistProfile :=
  { dominantGenres := ["a"], averageFeatures := zeroFeatures,
    moodProfile := onesMood, diversity := 0 }

/-- A concrete profile whose dominant-genre list repeats one genre. -/
def dupGenreProfile : PlaylistProfile :=
  { dominantGenres := ["a", "a"], averageFeatures := zeroFeatures,
    moodProfile := zeroMood, diversity := 0 }

/-- A concrete profile with two distinct dominant genres. -/
def abGenreProfile : PlaylistProfile :=
  { dominantGenres := ["a", "b"], averageFeatures := zeroFeatures,
    moodProfile := zeroMood, diversity := 0 }

/-- A concrete profile whose mood components lie far outside `[0, 1]`. -/
def wildMoodProfile : PlaylistProfile :=
  { dominantGenres := ["a"], averageFeatures := zeroFeatures,
    moodProfile := { happy := 10, energetic := 10, relaxed := 10, melancholic := 10 },
    diversity := 0 }

end PlaylistAnalyzer

namespace ListeningHistoryMatcher

/-- Embedding of `interface ListeningHistory` from
`utils/listeningHistoryMatcher.ts`. -/
structure ListeningHistory where
  trackId : String
  timestamp : ℤ
  playCount : ℕ
  duration : ℚ

/-- One `topArtists` entry of `UserMusicProfile`. -/
structure ArtistWeight where
  id : String
  weight : ℚ

/-- One `topGenres` entry of `UserMusicProfile`. -/
structure GenreWeight where
  name : String
  weight : ℚ

/-- The `listeningPatterns` record of `UserMusicProfile`. -/
structure ListeningPatterns where
  morningTracks : List String
  afternoonTracks : List String
  eveningTracks : List String
  weekendTracks : List String

/-- Embedding of `interface UserMusicProfile` from
`utils/listeningHistoryMatcher.ts`. -/
structure UserMusicProfile where
  recentTracks : List ListeningHistory
  topArtists : List ArtistWeight
  topGenres : List GenreWeight
  listeningPatterns : ListeningPatterns

/-- A concrete profile with no history at all. -/
def emptyUser : UserMusicProfile :=
  { recentTracks := [], topArtists := [], topGenres := [],
    listeningPatterns := { morningTracks := [], afternoonTracks := [],
                           eveningTracks := [], weekendTracks := [] } }

end ListeningHistoryMatcher

namespace MatchingAlgorithm

open ListeningHistoryMatcher

/-- `calculateRecentTrackScore` of `utils/matchingAlgorithm.ts`: shared track
ids over the size of the larger id set. -/
def calculateRecentTrackScore (tracks1 tracks2 : List ListeningHistory) : ℚ :=
  let track1Ids := (tracks1.map ListeningHistory.trackId).toFinset
  let track2Ids := (tracks2.map ListeningHistory.trackId).toFinset
  let commonTracks := track1Ids ∩ track2Ids
  (commonTracks.card : ℚ) / ((max track1Ids.card track2Ids.card : ℕ) : ℚ)

/-- `calculateArtistScore` of `utils/matchingAlgorithm.ts`. -/
def calculateArtistScore (artists1 artists2 : List ArtistWeight) : ℚ :=
  let artist1Ids := (artists1.map ArtistWeight.id).toFinset
  let artist2Ids := (artists2.map ArtistWeight.id).toFinset
  let commonArtists := artist1Ids ∩ artist2Ids
  (commonArtists.card : ℚ) / ((max artist1Ids.card artist2Ids.card : ℕ) : ℚ)

/-- `calculateGenreScore` of `utils/matchingAlgorithm.ts`. -/
def calculateGenreScore (genres1 genres2 : List GenreWeight) : ℚ :=
  let genre1Set := (genres1.map GenreWeight.name).toFinset
  let genre2Set := (genres2.map GenreWeight.name).toFinset
  let commonGenres := genre1Set ∩ genre2Set
  (commonGenres.card : ℚ) / ((max genre1Set.card genre2Set.card : ℕ) : ℚ)

/-- `MatchingAlgorithm.calculateMatchScore` with the hard-coded `WEIGHTS`
(recentTracks 0.6, artists 0.3, genres 0.1). -/
def calculateMatchScore (user1 user2 : UserMusicProfile) : ℚ :=
  calculateRecentTrackScore user1.recentTracks user2.recentTracks * 0.6 +
  calculateArtistScore user1.topArtists user2.topArtists * 0.3 +
  calculateGenreScore user1.topGenres user2.topGenres * 0.1

end MatchingAlgorithm

namespace MatchApi

/-- Embedding of the `User` documents read by `pages/api/match/index.ts`:
the Mongo `_id` (as a string), the optional profile fields, and the opaque
feature payloads. -/
structure UserDoc where
  _id : String
  playlistId : Option String
  photoUrl : Option String
  musicFeatures : Option String
  photoFeatures : Option String
deriving DecidableEq

/-- One entry of the JSON array the handler returns on success. -/
structure MatchResult where
  id : String
  playlistId : Option String
  photoUrl : Option String
  score : ℚ
deriving DecidableEq

/-- The JSON body of a handler response: either an error object
`\x7b message \x7d` or the sorted match array. -/
inductive ApiResponse where
  | message (msg : String)
  | matchList (l : List MatchResult)
deriving DecidableEq

/-- Outcome of `connectToDatabase` and the two queries: either some step
throws, or the `users` collection is available. -/
inductive DbOutcome where
  | dbError
  | dbOk (users : List UserDoc)

/-- `calculateMusicCompatibility` of `pages/api/match/index.ts`: the feature
arguments are ignored and `Math.random()` is returned; the draw is the
explicit parameter `r`. -/
def calculateMusicCompatibility (_features1 _features2 : Option String) (r : ℚ) : ℚ := r

/-- `calculatePhotoCompatibility` of `pages/api/match/index.ts`: likewise a
bare `Math.random()` draw. -/
def calculatePhotoCompatibility (_features1 _features2 : Option String) (r : ℚ) : ℚ := r

/-- `calculateMatchScore` of `pages/api/match/index.ts`:
`0.6 * photoScore + 0.4 * musicScore`, each score a random draw. -/
def calculateMatchScore (user1 user2 : UserDoc) (rMusic rPhoto : ℚ) : ℚ :=
  0.6 * calculatePhotoCompatibility user1.photoFeatures user2.photoFeatures rPhoto +
  0.4 * calculateMusicCompatibility user1.musicFeatures user2.musicFeatures rMusic

/-- The branch order of the `/api/match` handler: 405 for non-GET, 401
without a session, then inside `try` the user lookup (404 when absent), the
candidate query limited to 20 documents, per-candidate scoring with two
`Math.random()` draws (modelled by the stream `rand`), a descending stable
sort by score, and the projected 200 response; any thrown error yields 500. -/
def handler (method : String) (hasSession : Bool) (userId : String) (dbo : DbOutcome)
    (rand : ℕ → ℚ) : ℕ × ApiResponse :=
  if method ≠ "GET" then (405, .message ("Method not allowed"))
  else if ¬ hasSession then (401, .message ("Unauthorized"))
  else
    match dbo with
    | .dbError => (500, .message ("Internal server error"))
    | .dbOk users =>
      match users.find? (fun u => u._id == userId) with
      | none => (404, .message ("User not found"))
      | some user =>
        let matchDocs := (users.filter (fun u => u._id ≠ userId)).take 20
        let scoredMatches := matchDocs.enum.map
          (fun p => (p.2, calculateMatchScore user p.2 (rand (2 * p.1)) (rand (2 * p.1 + 1))))
        let sortedMatches :=
          @List.insertionSort (UserDoc × ℚ) (fun a b => b.2 ≤ a.2)
            (fun a b => inferInstanceAs (Decidable (b.2 ≤ a.2))) scoredMatches
        (200, .matchList (sortedMatches.map
          (fun p => { id := p.1._id, playlistId := p.1.playlistId,
                      photoUrl := p.1.photoUrl, score := p.2 })))

/-- A concrete user document for witnesses. -/
def someUser : UserDoc :=
  { _id := "u1", playlistId := none, photoUrl := none,
    musicFeatures := none, photoFeatures := none }

/-- A second concrete user document for witnesses. -/
def otherUser : UserDoc :=
  { _id := "u2", playlistId := some "p2", photoUrl := none,
    musicFeatures := none, photoFeatures := none }

end MatchApi

namespace MatchingService

/-- The `Track` interface of `services/matching.ts`. -/
structure Track where
  id : String
  name : String
  albumArt : String
deriving DecidableEq

/-- The `Match` interface of `services/matching.ts`. -/
structure Match where
  id : String
  name : String
  recentTracks : List Track
  matchScore : ℚ
deriving DecidableEq

/-- A raw track object of the API JSON; absent properties are `none`.
`albumImageUrl` stands for `track.album?.images?.[0]?.url`. -/
structure ApiTrack where
  id : Option String
  _id : Option String
  name : Option String
  albumArt : Option String
  albumImageUrl : Option String

/-- A raw match object of the API JSON. -/
structure ApiMatch where
  _id : String
  name : Option String
  score : Option ℚ
  tracks : Option (List ApiTrack)

/-- JavaScript `a || b` on a possibly absent string: the fallback is used
when `a` is `undefined` or the empty string (both falsy). -/
def jsOrString (a : Option String) (b : String) : String :=
  match a with
  | some s => if s = "" then b else s
  | none => b

/-- JavaScript `a || b` on a possibly absent number: the fallback is used
when `a` is `undefined` or `0` (both falsy). -/
def jsOrNum (a : Option ℚ) (b : ℚ) : ℚ :=
  match a with
  | some x => if x = 0 then b else x
  | none => b

/-- `MatchingService.transformTracks`. -/
def transformTracks (apiTracks : List ApiTrack) : List Track :=
  apiTracks.map (fun t =>
    { id := jsOrString t.id (jsOrString t._id ""),
      name := jsOrString t.name ("Unknown Track"),
      albumArt := jsOrString t.albumArt
        (jsOrString t.albumImageUrl ("https://via.placeholder.com/300")) })

/-- The hard-coded fallback array returned by
`MatchingService.getPotentialMatches` when anything fails. -/
def mockMatches : List Match :=
  [{ id := "match1", name := "Music Lover", matchScore := 0.85,
     recentTracks :=
       [{ id := "track1", name := "Bohemian Rhapsody",
          albumArt := "https://i.scdn.co/image/ab67616d0000b273365b3fb800c19f7ff72602da" },
        { id := "track2", name := "Hotel California",
          albumArt := "https://i.scdn.co/image/ab67616d0000b2738eadb51b1c90d7d5c5c8d354" },
        { id := "track3", name := "Stairway to Heaven",
          albumArt := "https://i.scdn.co/image/ab67616d0000b273c8a11e48c91a982d086afc69" }] },
   { id := "match2", name := "Indie Fan", matchScore := 0.78,
     recentTracks :=
       [{ id := "track4", name := "Midnight City",
          albumArt := "https://i.scdn.co/image/ab67616d0000b273b5bda8dea777b6b6b7e6b7b2" },
        { id := "track5", name := "Do I Wanna Know?",
          albumArt := "https://i.scdn.co/image/ab67616d0000b273f0f7a66904dc6c9573e09f2c" },
        { id := "track6", name := "Skinny Love",
          albumArt := "https://i.scdn.co/image/ab67616d0000b273b5551a14600db9e9dbc88d10" }] }]

/-- Environment of one `getPotentialMatches` call after the session check:
the fetch either throws, or returns a response with its `ok` flag and the
optional `matches` property of the parsed JSON (`none` models a body without
a `matches` array, whose `.map` throws). -/
inductive FetchOutcome where
  | fetchError
  | response (ok : Bool) (dataMatches : Option (List ApiMatch))

/-- `MatchingService.getPotentialMatches`: every failure path lands in the
`catch` block and returns `mockMatches`; only a session plus an ok response
with a `matches` array reaches the transforming `map`. -/
def getPotentialMatches (hasSession : Bool) (outcome : FetchOutcome) : List Match :=
  match hasSession, outcome with
  | false, _ => mockMatches
  | true, .fetchError => mockMatches
  | true, .response false _ => mockMatches
  | true, .response true none => mockMatches
  | true, .response true (some ms) =>
    ms.map (fun m =>
      { id := m._id, name := jsOrString m.name ("Music Match"),
        matchScore := jsOrNum m.score 0.75,
        recentTracks := transformTracks (m.tracks.getD []) })

end MatchingService

namespace PlaylistRecommender

/-- The artist objects carried on a Spotify track; the genre list may be
absent (`artist.genres || []`). -/
structure Artist where
  id : String
  name : String
  genres : Option (List String)
deriving DecidableEq

/-- The track objects ranked by `PlaylistRecommender`. -/
structure Track where
  id : String
  name : String
  artists : List Artist
deriving DecidableEq

/-- `rankTracks`: score every track (the per-track score
`calculateTrackScore` awaits a TensorFlow model prediction, an external
resource, and is abstracted as the oracle `score`), sort descending by
score with a stable sort, and drop the scores. -/
def rankTracks (score : Track → ℚ) (tracks : List Track) : List Track :=
  (@List.insertionSort (Track × ℚ) (fun a b => b.2 ≤ a.2)
      (fun a b => inferInstanceAs (Decidable (b.2 ≤ a.2)))
      (tracks.map (fun t => (t, score t)))).map Prod.fst

/-- The loop body state of `diversifyRecommendations`: genre and artist
tallies plus the number of tracks pushed so far.  A track is skipped when a
genre already has three picks or an artist two; after a push the loop breaks
once ten tracks are collected. -/
def diversifyAux (genreCounts artistCounts : String → ℕ) (n : ℕ) :
    List Track → List Track
  | [] => []
  | t :: rest =>
    let genres := t.artists.flatMap (fun a => a.genres.getD [])
    let artistIds := t.artists.map Artist.id
    if genres.any (fun g => decide (3 ≤ genreCounts g)) ||
        artistIds.any (fun a => decide (2 ≤ artistCounts a)) then
      diversifyAux genreCounts artistCounts n rest
    else
      let genreCounts2 := genres.foldl
        (fun m g => fun x => if x = g then m x + 1 else m x) genreCounts
      let artistCounts2 := artistIds.foldl
        (fun m a => fun x => if x = a then m x + 1 else m x) artistCounts
      if 10 ≤ n + 1 then [t]
      else t :: diversifyAux genreCounts2 artistCounts2 (n + 1) rest

/-- `diversifyRecommendations` (its `context` argument is unused in the
body). -/
def diversifyRecommendations {Ctx : Type} (recommendations : List Track) (_context : Ctx) :
    List Track :=
  diversifyAux (fun _ => 0) (fun _ => 0) 0 recommendations

/-- `PlaylistRecommender.generateRecommendations`: rank the available
tracks, then diversify.  The recommendation context and the model-backed
scoring are abstracted by the type `Ctx` and the oracle `calcScore`. -/
def generateRecommendations {Ctx : Type} (calcScore : Track → Ctx → ℚ)
    (availableTracks : List Track) (context : Ctx) : List Track :=
  diversifyRecommendations (rankTracks (fun t => calcScore t context) availableTracks) context

/-- A concrete track for witnesses. -/
def sampleTrack : Track :=
  { id := "t1", name := "Song", artists := [{ id := "a1", name := "Artist", genres := none }] }

end PlaylistRecommender

namespace AdvancedMusicAnalyzer

/-- Embedding of the Spotify `AudioFeatures` records consumed by
`utils/advancedMusicAnalysis.ts`. -/
structure AudioFeatures where
  danceability : ℝ
  energy : ℝ
  valence : ℝ
  tempo : ℝ
  acousticness : ℝ
  instrumentalness : ℝ
  speechiness : ℝ
  liveness : ℝ
  loudness : ℝ
  time_signature : ℕ

/-- `calculateFeatureDiversity` of `utils/advancedMusicAnalysis.ts`: zero
for lists of at most one value, otherwise twice the standard deviation
capped at 1. -/
noncomputable def calculateFeatureDiversity (values : List ℝ) : ℝ :=
  if values.length ≤ 1 then 0
  else
    let mean : ℝ := values.sum / values.length
    let variance : ℝ := (values.map (fun v => (v - mean) ^ 2)).sum / values.length
    let stdDev := Real.sqrt variance
    min (stdDev * 2) 1

/-- `calculateTemporalDiversity` of `utils/advancedMusicAnalysis.ts`,
guarded to return 0 on an empty list. -/
noncomputable def calculateTemporalDiversity (audioFeatures : List AudioFeatures) : ℝ :=
  if audioFeatures.length = 0 then 0
  else
    let tempos := audioFeatures.map AudioFeatures.tempo
    let mean : ℝ := tempos.sum / tempos.length
    let variance : ℝ := (tempos.map (fun t => (t - mean) ^ 2)).sum / tempos.length
    let stdDev := Real.sqrt variance
    let uniqueTimeSignatures := (audioFeatures.map AudioFeatures.time_signature).dedup.length
    let energyDiversity := calculateFeatureDiversity (audioFeatures.map AudioFeatures.energy)
    let danceDiversity :=
      calculateFeatureDiversity (audioFeatures.map AudioFeatures.danceability)
    let tempoFactor := min (stdDev / 50) 1
    let timeSignatureFactor := min (((uniqueTimeSignatures : ℝ) - 1) / 3) 1
    let otherFactor := (energyDiversity + danceDiversity) / 2
    tempoFactor * 0.4 + timeSignatureFactor * 0.3 + otherFactor * 0.3

end AdvancedMusicAnalyzer

namespace PlaylistAnalyzer

/-- All four mood components lie in the unit interval. -/
def MoodInUnit (m : MoodProfile) : Prop :=
  0 ≤ m.happy ∧ m.happy ≤ 1 ∧ 0 ≤ m.energetic ∧ m.energetic ≤ 1 ∧
  0 ≤ m.relaxed ∧ m.relaxed ≤ 1 ∧ 0 ≤ m.melancholic ∧ m.melancholic ≤ 1

/-- The four compared audio descriptors lie in the unit interval. -/
def FeaturesInUnit (f : TrackFeatures) : Prop :=
  0 ≤ f.danceability ∧ f.danceability ≤ 1 ∧ 0 ≤ f.energy ∧ f.energy ≤ 1 ∧
  0 ≤ f.valence ∧ f.valence ≤ 1 ∧ 0 ≤ f.acousticness ∧ f.acousticness ≤ 1

/-- Spec-side arithmetic mean of a list of values. -/
noncomputable def meanOf (values : List ℝ) : ℝ := values.sum / values.length

/-- Spec-side standard deviation: the square root of the mean squared
deviation from the mean. -/
noncomputable def stdDevOf (values : List ℝ) : ℝ :=
  Real.sqrt (meanOf (values.map (fun v => (v - meanOf values) ^ 2)))

/-- Spec-side description of the `dominantGenres` output: at most five
genres - exactly five when at least five distinct genres occur - without
duplicates, every entry an occurring genre, listed in descending frequency
order, and no omitted genre more frequent than a listed one. -/
def IsRankedTopGenres (artists : List Artist) (l : List String) : Prop :=
  l.length = min 5 (objectKeys (allArtistGenres artists)).length ∧
  l.Nodup ∧
  (∀ g ∈ l, g ∈ allArtistGenres artists) ∧
  l.Pairwise (fun g1 g2 => genreCount artists g2 ≤ genreCount artists g1) ∧
  (∀ g ∈ allArtistGenres artists, g ∉ l →
    ∀ h ∈ l, genreCount artists g ≤ genreCount artists h)

/-- A concrete artist list for witnesses. -/
def sampleArtists : List Artist :=
  [{ id := "ar1", name := "A", genres := ["rock", "pop"] },
   { id := "ar2", name := "B", genres := ["rock"] }]

end PlaylistAnalyzer

namespace PlaylistAnalyzer

/-- Claim C3: a profile compared with itself scores exactly 1 whenever its
`dominantGenres` list is non-empty. -/
theorem compat_self_eq_one (p : PlaylistProfile) (h : p.dominantGenres ≠ []) :
    calculatePlaylistCompatibility p p = 1 := by
  have hlen : ((p.dominantGenres.length : ℕ) : ℝ) ≠ 0 := by
    simpa using h
  have hfilter : (p.dominantGenres.filter (fun genre => genre ∈ p.dominantGenres)).length
      = p.dominantGenres.length := by
    congr 1
    apply List.filter_eq_self.mpr
    intro a ha
    simpa using ha
  unfold calculatePlaylistCompatibility calculateMoodDistance calculateFeatureDistance
  simp only [hfilter, min_self, sub_self, abs_zero]
  rw [div_self hlen]
  norm_num

/-- Witness for C3 at a concrete profile with one dominant genre. -/
theorem compat_self_eq_one_witness :
    calculatePlaylistCompatibility
      { dominantGenres := ["rock"],
        averageFeatures :=
          { danceability := 0, energy := 0, valence := 0, tempo := 0,
            acousticness := 0, instrumentalness := 0, genres := [] },
        moodProfile := { happy := 0, energetic := 0, relaxed := 0, melancholic := 0 },
        diversity := 0 }
      { dominantGenres := ["rock"],
        averageFeatures :=
          { danceability := 0, energy := 0, valence := 0, tempo := 0,
            acousticness := 0, instrumentalness := 0, genres := [] },
        moodProfile := { happy := 0, energetic := 0, relaxed := 0, melancholic := 0 },
        diversity := 0 } = 1 :=
  compat_self_eq_one _ (by simp)

end PlaylistAnalyzer

namespace PlaylistAnalyzer

/-- Helper: `Real.sqrt 4 = 2`. -/
theorem sqrt_four_eq_two : Real.sqrt 4 = 2 := by
  rw [show (4 : ℝ) = 2 ^ 2 by norm_num]
  exact Real.sqrt_sq (by norm_num)

/-- Helper: the mood distance of the source is the Euclidean distance
divided by 2. -/
theorem calculateMoodDistance_eq_rms (mood1 mood2 : MoodProfile) :
    calculateMoodDistance mood1 mood2 = rmsMoodDistance mood1 mood2 := by
  unfold calculateMoodDistance rmsMoodDistance euclideanMoodDistance
  rw [Real.sqrt_div' _ (by norm_num : (0 : ℝ) ≤ 4), sqrt_four_eq_two]

/-- Helper: the feature distance of the source is the Euclidean distance
divided by 2. -/
theorem calculateFeatureDistance_eq_rms (features1 features2 : TrackFeatures) :
    calculateFeatureDistance features1 features2 = rmsFeatureDistance features1 features2 := by
  unfold calculateFeatureDistance rmsFeatureDistance euclideanFeatureDistance
  rw [Real.sqrt_div' _ (by norm_num : (0 : ℝ) ≤ 4), sqrt_four_eq_two]

/-- Claim C1, counterexample: at `profileA` / `profileB` the source score
(0.6) differs from the claimed weighted combination built from plain
Euclidean distances (0.2). -/
theorem compat_ne_claimed_euclidean :
    calculatePlaylistCompatibility profileA profileB ≠ claimedCompatibility profileA profileB := by
  unfold calculatePlaylistCompatibility claimedCompatibility calculateMoodDistance
    calculateFeatureDistance euclideanMoodDistance euclideanFeatureDistance genreOverlapScore
  simp only [profileA, profileB, zeroMood, onesMood, zeroFeatures]
  norm_num [Real.sqrt_one, Real.sqrt_zero, sqrt_four_eq_two]

/-- Claim C1 as amended: `calculatePlaylistCompatibility` is the weighted
combination, with weights 0.3 / 0.4 / 0.2 / 0.1, of the genre-overlap ratio
(shared genres over the smaller list size), one minus the root-mean-square
(Euclidean divided by 2) mood distance, one minus the root-mean-square
distance of the four compared audio descriptors, and one minus the absolute
diversity difference. -/
theorem compat_eq_weighted_rms (profile1 profile2 : PlaylistProfile) :
    calculatePlaylistCompatibility profile1 profile2 = amendedCompatibility profile1 profile2 := by
  unfold calculatePlaylistCompatibility amendedCompatibility genreOverlapScore
  rw [calculateMoodDistance_eq_rms, calculateFeatureDistance_eq_rms]

end PlaylistAnalyzer

namespace PlaylistAnalyzer

/-- Claim C7, counterexample: two averaged feature records that agree on
energy, valence and danceability but produce different mood profiles (the
`relaxed` and `melancholic` components read `acousticness`, which the claim
does not allow). -/
theorem mood_not_composite_of_danceability :
    zeroFeatures.energy = acousticFeatures.energy ∧
    zeroFeatures.valence = acousticFeatures.valence ∧
    zeroFeatures.danceability = acousticFeatures.danceability ∧
    moodProfileOf zeroFeatures ≠ moodProfileOf acousticFeatures := by
  refine ⟨rfl, rfl, rfl, fun h => ?_⟩
  have hrel := congrArg MoodProfile.relaxed h
  simp only [moodProfileOf, zeroFeatures, acousticFeatures] at hrel
  norm_num at hrel

/-- Claim C7 as amended: every component of the `moodProfile` computed by
`analyzePlaylist` is a function of the averaged energy, valence and
acousticness descriptors alone. -/
theorem mood_composite_of_energy_valence_acousticness (f g : TrackFeatures)
    (he : f.energy = g.energy) (hv : f.valence = g.valence)
    (ha : f.acousticness = g.acousticness) :
    moodProfileOf f = moodProfileOf g := by
  unfold moodProfileOf
  rw [he, hv, ha]

/-- Witness for the amended C7 at two concrete records differing only in
tempo. -/
theorem mood_composite_witness :
    moodProfileOf zeroFeatures =
      moodProfileOf
        { danceability := 0, energy := 0, valence := 0, tempo := 99,
          acousticness := 0, instrumentalness := 0, genres := [] } :=
  mood_composite_of_energy_valence_acousticness _ _ rfl rfl rfl

end PlaylistAnalyzer

namespace PlaylistAnalyzer

/-- Helper: the mood distance is symmetric in its two arguments. -/
theorem calculateMoodDistance_comm (mood1 mood2 : MoodProfile) :
    calculateMoodDistance mood1 mood2 = calculateMoodDistance mood2 mood1 := by
  unfold calculateMoodDistance
  congr 1
  ring

/-- Helper: the feature distance is symmetric in its two arguments. -/
theorem calculateFeatureDistance_comm (features1 features2 : TrackFeatures) :
    calculateFeatureDistance features1 features2 = calculateFeatureDistance features2 features1 := by
  unfold calculateFeatureDistance
  congr 1
  ring

/-- Helper: on duplicate-free lists, counting the elements of one list that
occur in the other is symmetric. -/
theorem filter_mem_length_comm {l1 l2 : List String} (h1 : l1.Nodup) (h2 : l2.Nodup) :
    (l1.filter (fun g => g ∈ l2)).length = (l2.filter (fun g => g ∈ l1)).length := by
  have key : ∀ a b : List String, a.Nodup →
      (a.filter (fun g => g ∈ b)).length = (a.toFinset ∩ b.toFinset).card := by
    intro a b ha
    rw [← List.toFinset_card_of_nodup (ha.filter _)]
    congr 1
    rw [List.toFinset_filter]
    ext x
    simp
  rw [key l1 l2 h1, key l2 l1 h2, Finset.inter_comm]

end PlaylistAnalyzer

namespace MatchingAlgorithm

/-- Helper: the shared-cardinality-over-max ratio is symmetric. -/
theorem card_ratio_comm (s t : Finset String) :
    ((s ∩ t).card : ℚ) / ((max s.card t.card : ℕ) : ℚ) =
      ((t ∩ s).card : ℚ) / ((max t.card s.card : ℕ) : ℚ) := by
  rw [Finset.inter_comm, max_comm]

/-- Helper: `calculateRecentTrackScore` is symmetric. -/
theorem calculateRecentTrackScore_comm (tracks1 tracks2) :
    calculateRecentTrackScore tracks1 tracks2 = calculateRecentTrackScore tracks2 tracks1 :=
  card_ratio_comm _ _

/-- Helper: `calculateArtistScore` is symmetric. -/
theorem calculateArtistScore_comm (artists1 artists2) :
    calculateArtistScore artists1 artists2 = calculateArtistScore artists2 artists1 :=
  card_ratio_comm _ _

/-- Helper: `calculateGenreScore` is symmetric. -/
theorem calculateGenreScore_comm (genres1 genres2) :
    calculateGenreScore genres1 genres2 = calculateGenreScore genres2 genres1 :=
  card_ratio_comm _ _

end MatchingAlgorithm

namespace PlaylistAnalyzer

/-- Claim C2, counterexample: with a duplicated dominant genre the playlist
compatibility is not symmetric (the two orders give 1 and 0.85). -/
theorem compat_not_symmetric_with_duplicates :
    calculatePlaylistCompatibility dupGenreProfile abGenreProfile ≠
      calculatePlaylistCompatibility abGenreProfile dupGenreProfile := by
  unfold calculatePlaylistCompatibility calculateMoodDistance calculateFeatureDistance
  simp only [dupGenreProfile, abGenreProfile, zeroFeatures, zeroMood]
  norm_num [Real.sqrt_zero]
  simp only [List.filter, String.reduceEq]
  norm_num

/-- Claim C2 as amended: `MatchingAlgorithm.calculateMatchScore` is symmetric
for all user profiles, and `calculatePlaylistCompatibility` is symmetric for
all profiles whose dominant-genre lists are duplicate-free. -/
theorem scores_symmetric_amended :
    (∀ u1 u2 : ListeningHistoryMatcher.UserMusicProfile,
        MatchingAlgorithm.calculateMatchScore u1 u2 =
          MatchingAlgorithm.calculateMatchScore u2 u1) ∧
    (∀ p1 p2 : PlaylistProfile, p1.dominantGenres.Nodup → p2.dominantGenres.Nodup →
        calculatePlaylistCompatibility p1 p2 = calculatePlaylistCompatibility p2 p1) := by
  constructor
  · intro u1 u2
    unfold MatchingAlgorithm.calculateMatchScore
    rw [MatchingAlgorithm.calculateRecentTrackScore_comm,
      MatchingAlgorithm.calculateArtistScore_comm, MatchingAlgorithm.calculateGenreScore_comm]
  · intro p1 p2 h1 h2
    simp only [calculatePlaylistCompatibility]
    rw [filter_mem_length_comm h1 h2, min_comm, calculateMoodDistance_comm,
      calculateFeatureDistance_comm, abs_sub_comm]

/-- Witness for the amended C2 at concrete inputs. -/
theorem scores_symmetric_amended_witness :
    MatchingAlgorithm.calculateMatchScore ListeningHistoryMatcher.emptyUser
        ListeningHistoryMatcher.emptyUser =
      MatchingAlgorithm.calculateMatchScore ListeningHistoryMatcher.emptyUser
        ListeningHistoryMatcher.emptyUser ∧
    calculatePlaylistCompatibility profileA abGenreProfile =
      calculatePlaylistCompatibility abGenreProfile profileA :=
  ⟨scores_symmetric_amended.1 _ _,
   scores_symmetric_amended.2 profileA abGenreProfile (by simp [profileA])
     (by simp [abGenreProfile])⟩

end PlaylistAnalyzer

namespace PlaylistAnalyzer

/-- Helper: `Real.sqrt 100 = 10`. -/
theorem sqrt_hundred_eq_ten : Real.sqrt 100 = 10 := by
  rw [show (100 : ℝ) = 10 ^ 2 by norm_num]
  exact Real.sqrt_sq (by norm_num)

/-- Claim C4, counterexample: with mood components outside the unit interval
the compatibility of `profileA` and `wildMoodProfile` is `-3`, far below 0,
so the score is not always in `[0, 1]`. -/
theorem compat_below_zero_cex :
    calculatePlaylistCompatibility profileA wildMoodProfile < 0 := by
  unfold calculatePlaylistCompatibility calculateMoodDistance calculateFeatureDistance
  simp only [profileA, wildMoodProfile, zeroFeatures, zeroMood]
  norm_num [Real.sqrt_zero, sqrt_hundred_eq_ten]

/-- Helper: squared difference of two unit-interval values is at most 1. -/
theorem sq_diff_le_one {x y : ℝ} (hx0 : 0 ≤ x) (hx1 : x ≤ 1) (hy0 : 0 ≤ y) (hy1 : y ≤ 1) :
    (x - y) ^ 2 ≤ 1 := by
  nlinarith

/-- Helper: the mood distance of unit-interval moods is at most 1. -/
theorem calculateMoodDistance_le_one {mood1 mood2 : MoodProfile}
    (h1 : MoodInUnit mood1) (h2 : MoodInUnit mood2) :
    calculateMoodDistance mood1 mood2 ≤ 1 := by
  obtain ⟨a0, a1, b0, b1, c0, c1, d0, d1⟩ := h1
  obtain ⟨e0, e1, f0, f1, g0, g1, i0, i1⟩ := h2
  unfold calculateMoodDistance
  have h1 := sq_diff_le_one a0 a1 e0 e1
  have h2 := sq_diff_le_one b0 b1 f0 f1
  have h3 := sq_diff_le_one c0 c1 g0 g1
  have h4 := sq_diff_le_one d0 d1 i0 i1
  calc Real.sqrt (((mood1.happy - mood2.happy) ^ 2 + (mood1.energetic - mood2.energetic) ^ 2 +
        (mood1.relaxed - mood2.relaxed) ^ 2 + (mood1.melancholic - mood2.melancholic) ^ 2) / 4)
      ≤ Real.sqrt 1 := Real.sqrt_le_sqrt (by linarith)
    _ = 1 := Real.sqrt_one

/-- Helper: the feature distance of unit-interval descriptor vectors is at
most 1. -/
theorem calculateFeatureDistance_le_one {features1 features2 : TrackFeatures}
    (h1 : FeaturesInUnit features1) (h2 : FeaturesInUnit features2) :
    calculateFeatureDistance features1 features2 ≤ 1 := by
  obtain ⟨a0, a1, b0, b1, c0, c1, d0, d1⟩ := h1
  obtain ⟨e0, e1, f0, f1, g0, g1, i0, i1⟩ := h2
  unfold calculateFeatureDistance
  have h1 := sq_diff_le_one a0 a1 e0 e1
  have h2 := sq_diff_le_one b0 b1 f0 f1
  have h3 := sq_diff_le_one c0 c1 g0 g1
  have h4 := sq_diff_le_one d0 d1 i0 i1
  calc Real.sqrt (((features1.danceability - features2.danceability) ^ 2 +
        (features1.energy - features2.energy) ^ 2 +
        (features1.valence - features2.valence) ^ 2 +
        (features1.acousticness - features2.acousticness) ^ 2) / 4)
      ≤ Real.sqrt 1 := Real.sqrt_le_sqrt (by linarith)
    _ = 1 := Real.sqrt_one

/-- Helper: with a duplicate-free first list, the number of its elements
lying in the second list is at most the second list's length. -/
theorem filter_mem_length_le (l1 l2 : List String) (h1 : l1.Nodup) :
    (l1.filter (fun g => g ∈ l2)).length ≤ l2.length := by
  have hnd : (l1.filter (fun g => g ∈ l2)).Nodup := h1.filter _
  rw [← List.toFinset_card_of_nodup hnd]
  calc (l1.filter (fun g => g ∈ l2)).toFinset.card
      ≤ l2.toFinset.card := by
        apply Finset.card_le_card
        intro x hx
        simp only [List.mem_toFinset, List.mem_filter, decide_eq_true_eq] at hx ⊢
        exact hx.2
    _ ≤ l2.length := l2.toFinset_card_le

/-- Claim C4 as amended: the playlist compatibility lies in `[0, 1]` for
profiles with duplicate-free, non-empty dominant-genre lists whose mood
components, compared descriptors and diversity scores all lie in the unit
interval; and the `/api/match` score lies in `[0, 1]` whenever the two
`Math.random()` draws lie in `[0, 1)`. -/
theorem scores_in_unit_interval_amended :
    (∀ p1 p2 : PlaylistProfile,
      p1.dominantGenres.Nodup → p1.dominantGenres ≠ [] → p2.dominantGenres ≠ [] →
      MoodInUnit p1.moodProfile → MoodInUnit p2.moodProfile →
      FeaturesInUnit p1.averageFeatures → FeaturesInUnit p2.averageFeatures →
      0 ≤ p1.diversity → p1.diversity ≤ 1 → 0 ≤ p2.diversity → p2.diversity ≤ 1 →
      0 ≤ calculatePlaylistCompatibility p1 p2 ∧ calculatePlaylistCompatibility p1 p2 ≤ 1) ∧
    (∀ (u1 u2 : MatchApi.UserDoc) (rMusic rPhoto : ℚ),
      0 ≤ rMusic → rMusic < 1 → 0 ≤ rPhoto → rPhoto < 1 →
      0 ≤ MatchApi.calculateMatchScore u1 u2 rMusic rPhoto ∧
        MatchApi.calculateMatchScore u1 u2 rMusic rPhoto ≤ 1) := by
  constructor
  · intro p1 p2 hnd hne1 hne2 hm1 hm2 hf1 hf2 hd10 hd11 hd20 hd21
    have hlen1 : 0 < p1.dominantGenres.length := List.length_pos.mpr hne1
    have hlen2 : 0 < p2.dominantGenres.length := List.length_pos.mpr hne2
    have hminpos : 0 < min p1.dominantGenres.length p2.dominantGenres.length :=
      lt_min hlen1 hlen2
    have hcle : (p1.dominantGenres.filter (fun g => g ∈ p2.dominantGenres)).length ≤
        min p1.dominantGenres.length p2.dominantGenres.length :=
      le_min (List.length_filter_le _ _) (filter_mem_length_le _ _ hnd)
    have hratio0 : (0 : ℝ) ≤
        ((p1.dominantGenres.filter (fun g => g ∈ p2.dominantGenres)).length : ℝ) /
          ((min p1.dominantGenres.length p2.dominantGenres.length : ℕ) : ℝ) := by
      positivity
    have hratio1 :
        ((p1.dominantGenres.filter (fun g => g ∈ p2.dominantGenres)).length : ℝ) /
          ((min p1.dominantGenres.length p2.dominantGenres.length : ℕ) : ℝ) ≤ 1 := by
      rw [div_le_one (by exact_mod_cast hminpos)]
      exact_mod_cast hcle
    have hdm0 : 0 ≤ calculateMoodDistance p1.moodProfile p2.moodProfile :=
      Real.sqrt_nonneg _
    have hdm1 := calculateMoodDistance_le_one hm1 hm2
    have hdf0 : 0 ≤ calculateFeatureDistance p1.averageFeatures p2.averageFeatures :=
      Real.sqrt_nonneg _
    have hdf1 := calculateFeatureDistance_le_one hf1 hf2
    have habs0 : 0 ≤ |p1.diversity - p2.diversity| := abs_nonneg _
    have habs1 : |p1.diversity - p2.diversity| ≤ 1 :=
      abs_le.mpr ⟨by linarith, by linarith⟩
    unfold calculatePlaylistCompatibility
    constructor <;> [nlinarith; nlinarith]
  · intro u1 u2 rMusic rPhoto hm0 hm1 hp0 hp1
    unfold MatchApi.calculateMatchScore MatchApi.calculateMusicCompatibility
      MatchApi.calculatePhotoCompatibility
    constructor <;> linarith

/-- Witness for the amended C4 at concrete in-range inputs. -/
theorem scores_in_unit_interval_amended_witness :
    (0 ≤ calculatePlaylistCompatibility profileA profileA ∧
      calculatePlaylistCompatibility profileA profileA ≤ 1) ∧
    (0 ≤ MatchApi.calculateMatchScore MatchApi.someUser MatchApi.otherUser 0 (1 / 2) ∧
      MatchApi.calculateMatchScore MatchApi.someUser MatchApi.otherUser 0 (1 / 2) ≤ 1) :=
  ⟨scores_in_unit_interval_amended.1 profileA profileA (by simp [profileA])
      (by simp [profileA]) (by simp [profileA])
      (by simp [MoodInUnit, profileA, zeroMood])
      (by simp [MoodInUnit, profileA, zeroMood])
      (by simp [FeaturesInUnit, profileA, zeroFeatures])
      (by simp [FeaturesInUnit, profileA, zeroFeatures])
      (by simp [profileA]) (by simp [profileA]) (by simp [profileA]) (by simp [profileA]),
   scores_in_unit_interval_amended.2 MatchApi.someUser MatchApi.otherUser 0 (1 / 2)
      (by norm_num) (by norm_num) (by norm_num) (by norm_num)⟩

end PlaylistAnalyzer

namespace PlaylistAnalyzer

/-- Claim C5, counterexample: on the empty track list the per-descriptor
averaging of `analyzePlaylist` and `calculateDiversity` do not yield
well-defined numbers (in the source: a `0 / 0 = NaN` average, and a
`TypeError` from `reduce` on an empty array). -/
theorem empty_input_not_well_defined_cex :
    averageFeatures ([] : List TrackFeatures) = none ∧
    calculateDiversity ([] : List TrackFeatures) = none := by
  constructor <;> rfl

/-- Claim C5 as amended: only `calculateTemporalDiversity` is guarded (it
returns 0 on an empty list); the averaging step and `calculateDiversity` are
undefined on empty input, so `analyzePlaylist` yields no profile there. -/
theorem empty_input_behavior_amended :
    AdvancedMusicAnalyzer.calculateTemporalDiversity [] = 0 ∧
    averageFeatures ([] : List TrackFeatures) = none ∧
    calculateDiversity ([] : List TrackFeatures) = none ∧
    ∀ artists, analyzePlaylist artists [] = none := by
  refine ⟨?_, rfl, rfl, fun artists => rfl⟩
  unfold AdvancedMusicAnalyzer.calculateTemporalDiversity
  simp

end PlaylistAnalyzer

namespace MatchingService

/-- Claim C8: every failure path of `MatchingService.getPotentialMatches`
(no session, thrown fetch, non-ok response, missing `matches` array) returns
the two hard-coded sample matches with scores 0.85 and 0.78, and the
`/api/match` handler answers every failing request with an error JSON and
the corresponding 4xx/5xx status. -/
theorem failure_fallback_spec :
    (∀ o, getPotentialMatches false o = mockMatches) ∧
    (getPotentialMatches true .fetchError = mockMatches) ∧
    (∀ d, getPotentialMatches true (.response false d) = mockMatches) ∧
    (getPotentialMatches true (.response true none) = mockMatches) ∧
    (mockMatches.map Match.matchScore = [0.85, 0.78]) ∧
    (∀ method hasSession userId dbo rand, method ≠ "GET" →
      MatchApi.handler method hasSession userId dbo rand =
        (405, .message ("Method not allowed"))) ∧
    (∀ userId dbo rand,
      MatchApi.handler "GET" false userId dbo rand = (401, .message ("Unauthorized"))) ∧
    (∀ userId rand,
      MatchApi.handler "GET" true userId .dbError rand =
        (500, .message ("Internal server error"))) ∧
    (∀ userId users rand, users.find? (fun u => u._id == userId) = none →
      MatchApi.handler "GET" true userId (.dbOk users) rand =
        (404, .message ("User not found"))) := by
  refine ⟨fun o => rfl, rfl, fun d => rfl, rfl, rfl, ?_, ?_, ?_, ?_⟩
  · intro method hasSession userId dbo rand hm
    simp [MatchApi.handler, hm]
  · intro userId dbo rand
    simp [MatchApi.handler]
  · intro userId rand
    simp [MatchApi.handler]
  · intro userId users rand hfind
    simp [MatchApi.handler, hfind]

/-- Witness for C8 at concrete failing requests. -/
theorem failure_fallback_spec_witness :
    MatchApi.handler "POST" true "u1" .dbError (fun _ => 0) =
      (405, .message ("Method not allowed")) ∧
    MatchApi.handler "GET" true "u1" (.dbOk []) (fun _ => 0) =
      (404, .message ("User not found")) :=
  ⟨failure_fallback_spec.2.2.2.2.2.1 "POST" true "u1" .dbError (fun _ => 0) (by decide),
   failure_fallback_spec.2.2.2.2.2.2.2.2 "u1" [] (fun _ => 0) rfl⟩

end MatchingService

namespace MatchApi

/-- Claim C9: on every successful GET request the `/api/match` handler
returns status 200 with the candidate list sorted in descending score order,
and the list holds at most the 20 candidates of the limited query. -/
theorem handler_ranked_and_limited (userId : String) (users : List UserDoc) (rand : ℕ → ℚ)
    (u : UserDoc) (hfind : users.find? (fun x => x._id == userId) = some u) :
    ∃ l, handler "GET" true userId (.dbOk users) rand = (200, .matchList l) ∧
      l.length ≤ 20 ∧ (l.map MatchResult.score).Pairwise (fun a b => b ≤ a) := by
  simp only [handler, hfind]
  rw [if_neg (by simp), if_neg (by simp)]
  refine ⟨_, rfl, ?_, ?_⟩
  · rw [List.length_map, List.length_insertionSort, List.length_map, List.enum_length,
      List.length_take]
    exact min_le_left _ _
  · have hsorted := @List.sorted_insertionSort (UserDoc × ℚ) (fun a b => b.2 ≤ a.2)
      (fun a b => inferInstanceAs (Decidable (b.2 ≤ a.2)))
      ⟨fun a b => le_total b.2 a.2⟩ ⟨fun a b c h1 h2 => le_trans h2 h1⟩
      (((users.filter (fun x => x._id ≠ userId)).take 20).enum.map
        (fun p => (p.2, calculateMatchScore u p.2 (rand (2 * p.1)) (rand (2 * p.1 + 1)))))
    rw [List.map_map]
    exact List.pairwise_map.mpr (hsorted.imp (fun h => h))

/-- Witness for C9 at a concrete database of two users. -/
theorem handler_ranked_and_limited_witness :
    ∃ l, handler "GET" true "u1" (.dbOk [someUser, otherUser]) (fun _ => 0) =
        (200, .matchList l) ∧
      l.length ≤ 20 ∧ (l.map MatchResult.score).Pairwise (fun a b => b ≤ a) :=
  handler_ranked_and_limited "u1" [someUser, otherUser] (fun _ => 0) someUser rfl

end MatchApi

namespace PlaylistRecommender

/-- Helper: `diversifyAux` only ever picks tracks from its input, in order. -/
theorem diversifyAux_sublist : ∀ (l : List Track) (gc ac : String → ℕ) (n : ℕ),
    List.Sublist (diversifyAux gc ac n l) l
  | [], _, _, _ => by simp [diversifyAux]
  | t :: rest, gc, ac, n => by
    rw [diversifyAux]
    dsimp only
    split
    · exact (diversifyAux_sublist rest gc ac n).trans (List.sublist_cons_self t rest)
    · split
      · exact (List.nil_sublist rest).cons₂ t
      · exact (diversifyAux_sublist rest _ _ (n + 1)).cons₂ t

/-- Helper: starting below ten picks, `diversifyAux` never exceeds ten in
total. -/
theorem diversifyAux_length (l : List Track) : ∀ (gc ac : String → ℕ) (n : ℕ),
    n < 10 → (diversifyAux gc ac n l).length + n ≤ 10 := by
  induction l with
  | nil =>
    intro gc ac n h
    simp only [diversifyAux, List.length_nil]
    omega
  | cons t rest ih =>
    intro gc ac n h
    rw [diversifyAux]
    dsimp only
    split
    · exact ih gc ac n h
    · split
      · simp only [List.length_singleton]
        omega
      · simp only [List.length_cons]
        rw [Nat.add_assoc, Nat.add_comm 1 n]
        exact ih _ _ (n + 1) (by omega)

/-- Claim C10: `generateRecommendations` returns at most ten tracks, the
output is a subsequence of the ranked list, and every returned track is an
element of the input list. -/
theorem generateRecommendations_spec {Ctx : Type} (calcScore : Track → Ctx → ℚ)
    (availableTracks : List Track) (context : Ctx) :
    (generateRecommendations calcScore availableTracks context).length ≤ 10 ∧
    List.Sublist (generateRecommendations calcScore availableTracks context)
      (rankTracks (fun t => calcScore t context) availableTracks) ∧
    ∀ t ∈ generateRecommendations calcScore availableTracks context, t ∈ availableTracks := by
  have hsub := diversifyAux_sublist
    (rankTracks (fun t => calcScore t context) availableTracks) (fun _ => 0) (fun _ => 0) 0
  have hlen := diversifyAux_length
    (rankTracks (fun t => calcScore t context) availableTracks) (fun _ => 0) (fun _ => 0) 0
    (by norm_num)
  have hperm : (rankTracks (fun t => calcScore t context) availableTracks).Perm
      availableTracks := by
    unfold rankTracks
    refine List.Perm.trans (List.Perm.map Prod.fst (List.perm_insertionSort _ _)) ?_
    rw [List.map_map]
    have hcomp : (Prod.fst ∘ fun t => (t, calcScore t context)) = id := rfl
    rw [hcomp, List.map_id]
  simp only [generateRecommendations, diversifyRecommendations]
  refine ⟨?_, hsub, ?_⟩
  · omega
  · intro t ht
    exact hperm.mem_iff.mp (hsub.subset ht)

/-- Witness for C10 at a concrete one-track library. -/
theorem generateRecommendations_spec_witness :
    (generateRecommendations (fun _ _ => (0 : ℚ)) [sampleTrack] ()).length ≤ 10 ∧
    sampleTrack ∈ [sampleTrack] :=
  ⟨(generateRecommendations_spec (fun _ _ => (0 : ℚ)) [sampleTrack] ()).1,
   (generateRecommendations_spec (fun _ _ => (0 : ℚ)) [sampleTrack] ()).2.2 sampleTrack
     (by decide)⟩

end PlaylistRecommender

namespace PlaylistAnalyzer

/-- Helper: membership in the accumulated key list. -/
theorem mem_foldl_keys (l : List String) : ∀ (acc : List String) (x : String),
    x ∈ l.foldl (fun acc g => if g ∈ acc then acc else acc ++ [g]) acc ↔ x ∈ acc ∨ x ∈ l := by
  induction l with
  | nil => simp
  | cons a l ih =>
    intro acc x
    simp only [List.foldl_cons]
    split
    · rename_i ha
      rw [ih]
      simp only [List.mem_cons]
      constructor
      · rintro (h | h)
        · exact Or.inl h
        · exact Or.inr (Or.inr h)
      · rintro (h | h | h)
        · exact Or.inl h
        · exact Or.inl (h ▸ ha)
        · exact Or.inr h
    · rw [ih]
      simp only [List.mem_append, List.mem_singleton, List.mem_cons]
      tauto

theorem nodup_foldl_keys (l : List String) : ∀ acc : List String, acc.Nodup →
    (l.foldl (fun acc g => if g ∈ acc then acc else acc ++ [g]) acc).Nodup := by
  induction l with
  | nil => intro acc h; exact h
  | cons a l ih =>
    intro acc h
    simp only [List.foldl_cons]
    split
    · exact ih acc h
    · rename_i ha
      apply ih
      simp [List.nodup_append, h, ha]

theorem mem_objectKeys (l : List String) (x : String) : x ∈ objectKeys l ↔ x ∈ l := by
  unfold objectKeys
  rw [mem_foldl_keys]
  simp

theorem nodup_objectKeys (l : List String) : (objectKeys l).Nodup :=
  nodup_foldl_keys l [] List.nodup_nil

theorem dominantGenresOf_ranked (artists : List Artist) :
    IsRankedTopGenres artists (dominantGenresOf artists) := by
  set r : String → String → Prop :=
    fun g1 g2 => genreCount artists g2 ≤ genreCount artists g1 with hr
  set keys := objectKeys (allArtistGenres artists) with hkeys
  have hsorted : List.Sorted r (@List.insertionSort String r
      (fun g1 g2 => inferInstanceAs (Decidable (genreCount artists g2 ≤ genreCount artists g1)))
      keys) :=
    @List.sorted_insertionSort String r
      (fun g1 g2 => inferInstanceAs (Decidable (genreCount artists g2 ≤ genreCount artists g1)))
      ⟨fun a b => le_total (genreCount artists b) (genreCount artists a)⟩
      ⟨fun _ _ _ h1 h2 => le_trans h2 h1⟩ keys
  set s := @List.insertionSort String r
      (fun g1 g2 => inferInstanceAs (Decidable (genreCount artists g2 ≤ genreCount artists g1)))
      keys with hs
  have hperm : s.Perm keys := List.perm_insertionSort _ _
  have hnodup : s.Nodup := (hperm.nodup_iff).mpr (nodup_objectKeys _)
  have hdom : dominantGenresOf artists = s.take 5 := rfl
  refine ⟨?_, ?_, ?_, ?_, ?_⟩
  · rw [hdom, List.length_take, List.length_insertionSort]
  · exact (List.take_sublist 5 s).nodup hnodup
  · intro g hg
    rw [hdom] at hg
    have : g ∈ s := List.take_subset 5 s hg
    exact (mem_objectKeys _ _).mp (hperm.mem_iff.mp this)
  · exact hsorted.sublist (List.take_sublist 5 s)
  · intro g hg hgnot h hh
    rw [hdom] at hgnot hh
    have hgs : g ∈ s := hperm.mem_iff.mpr ((mem_objectKeys _ _).mpr hg)
    have hgdrop : g ∈ s.drop 5 := by
      rcases (List.mem_append.mp ((List.take_append_drop 5 s) ▸ hgs)) with h1 | h1
      · exact absurd h1 hgnot
      · exact h1
    have hpair : List.Pairwise r (s.take 5 ++ s.drop 5) := by
      rw [List.take_append_drop]
      exact hsorted
    exact (List.pairwise_append.mp hpair).2.2 h hh g hgdrop

end PlaylistAnalyzer

namespace PlaylistAnalyzer

/-- Helper: the per-feature standard deviation of the source equals the
spec-side standard deviation. -/
theorem featureStdDev_eq (values : List ℝ) : featureStdDev values = stdDevOf values := by
  unfold featureStdDev stdDevOf meanOf
  rw [List.length_map]

/-- Claim C6: for a non-empty track list, `analyzePlaylist` yields a profile
whose `dominantGenres` are the at-most-five most frequent artist genres in
descending frequency order, whose `averageFeatures` are the arithmetic means
of the six numeric descriptors, and whose `diversity` is the mean of the
standard deviations of danceability, energy, valence and acousticness. -/
theorem analyzePlaylist_spec (artists : List Artist) (audioFeatures : List TrackFeatures)
    (hne : audioFeatures ≠ []) :
    ∃ p, analyzePlaylist artists audioFeatures = some p ∧
      IsRankedTopGenres artists p.dominantGenres ∧
      p.averageFeatures.danceability = meanOf (audioFeatures.map TrackFeatures.danceability) ∧
      p.averageFeatures.energy = meanOf (audioFeatures.map TrackFeatures.energy) ∧
      p.averageFeatures.valence = meanOf (audioFeatures.map TrackFeatures.valence) ∧
      p.averageFeatures.tempo = meanOf (audioFeatures.map TrackFeatures.tempo) ∧
      p.averageFeatures.acousticness = meanOf (audioFeatures.map TrackFeatures.acousticness) ∧
      p.averageFeatures.instrumentalness =
        meanOf (audioFeatures.map TrackFeatures.instrumentalness) ∧
      p.diversity =
        (stdDevOf (audioFeatures.map TrackFeatures.danceability) +
         stdDevOf (audioFeatures.map TrackFeatures.energy) +
         stdDevOf (audioFeatures.map TrackFeatures.valence) +
         stdDevOf (audioFeatures.map TrackFeatures.acousticness)) / 4 := by
  have hlen : ¬ audioFeatures.length = 0 := by simpa using hne
  unfold analyzePlaylist averageFeatures calculateDiversity
  simp only [if_neg hlen]
  refine ⟨_, rfl, dominantGenresOf_ranked artists, ?_, ?_, ?_, ?_, ?_, ?_, ?_⟩
  · simp [meanOf, List.length_map]
  · simp [meanOf, List.length_map]
  · simp [meanOf, List.length_map]
  · simp [meanOf, List.length_map]
  · simp [meanOf, List.length_map]
  · simp [meanOf, List.length_map]
  · simp only [featureStdDev_eq]

/-- Witness for C6 at a concrete one-track playlist with two artists. -/
theorem analyzePlaylist_spec_witness :
    ∃ p, analyzePlaylist sampleArtists [zeroFeatures] = some p ∧
      IsRankedTopGenres sampleArtists p.dominantGenres ∧
      p.averageFeatures.danceability = meanOf ([zeroFeatures].map TrackFeatures.danceability) ∧
      p.averageFeatures.energy = meanOf ([zeroFeatures].map TrackFeatures.energy) ∧
      p.averageFeatures.valence = meanOf ([zeroFeatures].map TrackFeatures.valence) ∧
      p.averageFeatures.tempo = meanOf ([zeroFeatures].map TrackFeatures.tempo) ∧
      p.averageFeatures.acousticness = meanOf ([zeroFeatures].map TrackFeatures.acousticness) ∧
      p.averageFeatures.instrumentalness =
        meanOf ([zeroFeatures].map TrackFeatures.instrumentalness) ∧
      p.diversity =
        (stdDevOf ([zeroFeatures].map TrackFeatures.danceability) +
         stdDevOf ([zeroFeatures].map TrackFeatures.energy) +
         stdDevOf ([zeroFeatures].map TrackFeatures.valence) +
         stdDevOf ([zeroFeatures].map TrackFeatures.acousticness)) / 4 :=
  analyzePlaylist_spec sampleArtists [zeroFeatures] (by simp)

end PlaylistAnalyzer
